import Mathlib

/-!
Verification development for the stop-n-go-alarm repository.

The shallow embedding below follows the TypeScript sources:
* `src/unnamed/part_008` (`useGeolocation`): `calculateDistance`, `formatDistance`,
  `startWatching`/`stopWatching`;
* `src/src/pages/Index.tsx`: the distance-check effect and `handleActivateAlarm`;
* `src/src/hooks/useAlarm.ts` and `src/src/hooks/useNativeAlarm.ts`: `triggerAlarm`,
  `stopAlarm`, `activateAlarm`, `deactivateAlarm`;
* `src/src/hooks/useNativeGeolocation.ts`: `startWatching`/`stopWatching`;
* `src/unnamed/part_003` (`useTripHistory`): `saveTrips`, `startTrip`, `endTrip`,
  `deleteTrip`, `clearHistory`.
-/

namespace StopNGo

/-! ## DistanceEvaluator -/

/-- Real-number semantics of JavaScript `Math.atan2 y x`: the angle of the point
`(x, y)`, in `(-pi, pi]`, with `atan2 0 0 = 0` as for positive-zero arguments. -/
noncomputable def atan2 (y x : ℝ) : ℝ :=
  if 0 < x then Real.arctan (y / x)
  else if x < 0 then
    (if 0 ≤ y then Real.arctan (y / x) + Real.pi else Real.arctan (y / x) - Real.pi)
  else if 0 < y then Real.pi / 2
  else if y < 0 then -(Real.pi / 2)
  else 0

/-- Embedding of `calculateDistance` from `src/unnamed/part_008` lines 131-149, in exact
real arithmetic: degrees are converted to radians, `a` is the haversine term written with
the source's repeated multiplications, `c = 2 * atan2 (sqrt a) (sqrt (1 - a))`, and the
result is `R * c` with `R = 6371e3` meters. -/
noncomputable def calculateDistance (lat1 lon1 lat2 lon2 : ℝ) : ℝ :=
  let R : ℝ := 6371000
  let phi1 := lat1 * Real.pi / 180
  let phi2 := lat2 * Real.pi / 180
  let dPhi := (lat2 - lat1) * Real.pi / 180
  let dLam := (lon2 - lon1) * Real.pi / 180
  let a := Real.sin (dPhi / 2) * Real.sin (dPhi / 2) +
    Real.cos phi1 * Real.cos phi2 * Real.sin (dLam / 2) * Real.sin (dLam / 2)
  let c := 2 * atan2 (Real.sqrt a) (Real.sqrt (1 - a))
  R * c

/-- The distance exactly as spec section 4.1 words it: haversine great-circle distance,
Earth radius 6,371,000 m, `d = 2 * R * atan2 (sqrt a) (sqrt (1 - a))` with
`a = sin^2 (dPhi / 2) + cos phi1 * cos phi2 * sin^2 (dLam / 2)`, latitudes and longitudes
converted from degrees to radians. Written independently of `calculateDistance` for the
refinement comparison. -/
noncomputable def specHaversineDistance (lat1 lon1 lat2 lon2 : ℝ) : ℝ :=
  let R : ℝ := 6371000
  let phi1 := lat1 * Real.pi / 180
  let phi2 := lat2 * Real.pi / 180
  let dPhi := (lat2 - lat1) * Real.pi / 180
  let dLam := (lon2 - lon1) * Real.pi / 180
  let a := Real.sin (dPhi / 2) ^ 2 + Real.cos phi1 * Real.cos phi2 * Real.sin (dLam / 2) ^ 2
  2 * R * atan2 (Real.sqrt a) (Real.sqrt (1 - a))

/-- JavaScript `Math.round` on the rationals: round to the nearest integer, ties toward
positive infinity, i.e. `floor (q + 1/2)`. -/
def jsRound (q : ℚ) : ℤ := Rat.floor (q + 1 / 2)

/-- JavaScript `Number.prototype.toFixed(1)` for the nonnegative values produced by
`formatDistance`: the integer `n` closest to `10 * q` (ties to the larger `n`, per the
ECMA algorithm), rendered as integer part, a dot, and one fractional digit. -/
def toFixed1 (q : ℚ) : String :=
  let n : ℤ := Rat.floor (q * 10 + 1 / 2)
  toString (n / 10) ++ "." ++ toString (n % 10)

/-- Embedding of `formatDistance` from `src/unnamed/part_008` lines 151-156: below
1000 m, the rounded meter count suffixed with "m"; otherwise the kilometer value with one
decimal suffixed with "km". -/
def formatDistance (meters : ℚ) : String :=
  if meters < 1000 then toString (jsRound meters) ++ "m"
  else toFixed1 (meters / 1000) ++ "km"

/-- A JavaScript number as observed by the distance code: `some x` finite, `none`
non-finite (NaN or an infinity). -/
abbrev JSNum : Type := Option ℝ

/-- Lifted binary arithmetic on JavaScript numbers: finite op finite is finite here
(true for every operation `calculateDistance` applies, see the section comment), and a
non-finite operand makes the result non-finite. -/
def jsBin (f : ℝ → ℝ → ℝ) : JSNum → JSNum → JSNum
  | some a, some b => some (f a b)
  | _, _ => none

/-- Lifted unary functions (`Math.sin`, `Math.cos`, `Math.sqrt`): non-finite arguments
give NaN in JavaScript. -/
def jsUn (f : ℝ → ℝ) : JSNum → JSNum
  | some a => some (f a)
  | none => none

/-- Lifted `Math.atan2`; in `calculateDistance` the only non-finite value that can reach
it is NaN, and `Math.atan2` of NaN is NaN. -/
noncomputable def jsAtan2 : JSNum → JSNum → JSNum
  | some y, some x => some (atan2 y x)
  | _, _ => none

/-- Embedding of `calculateDistance` (src/unnamed/part_008 lines 131-149) over
JavaScript-number semantics, line by line: the same degree conversion, haversine term
and `R * c` result, with each JavaScript operation lifted by non-finite propagation. -/
noncomputable def calculateDistanceJS (lat1 lon1 lat2 lon2 : JSNum) : JSNum :=
  let deg2rad : JSNum → JSNum := fun v => jsBin (fun a b => a / b) (jsBin (fun a b => a * b) v (some Real.pi)) (some 180)
  let phi1 := deg2rad lat1
  let phi2 := deg2rad lat2
  let dPhi := deg2rad (jsBin (fun a b => a - b) lat2 lat1)
  let dLam := deg2rad (jsBin (fun a b => a - b) lon2 lon1)
  let half : JSNum → JSNum := fun v => jsBin (fun a b => a / b) v (some 2)
  let a := jsBin (fun u v => u + v)
    (jsBin (fun u v => u * v) (jsUn Real.sin (half dPhi)) (jsUn Real.sin (half dPhi)))
    (jsBin (fun u v => u * v)
      (jsBin (fun u v => u * v)
        (jsBin (fun u v => u * v) (jsUn Real.cos phi1) (jsUn Real.cos phi2))
        (jsUn Real.sin (half dLam)))
      (jsUn Real.sin (half dLam)))
  let c := jsBin (fun u v => u * v) (some 2)
    (jsAtan2 (jsUn Real.sqrt a) (jsUn Real.sqrt (jsBin (fun u v => u - v) (some 1) a)))
  jsBin (fun u v => u * v) (some 6371000) c

/-- Error taxonomy of spec section 7 (the part relevant to the distance claims). -/
inductive GeoError : Type
  | invalidCoordinate
  | invalidFence
  | noPositionFix
deriving DecidableEq

/-- What a caller of `calculateDistance` observes: the source function has no error
channel at all, so every call returns its numeric value through the success path. -/
noncomputable def calculateDistanceResult (lat1 lon1 lat2 lon2 : JSNum) :
    Except GeoError JSNum :=
  Except.ok (calculateDistanceJS lat1 lon1 lat2 lon2)

/-- Observable state of the `useAlarm` hook plus the start-invocation counter. -/
structure AlarmState : Type where
  isActive : Bool
  isRinging : Bool
  startCount : ℕ
deriving DecidableEq, Repr

/-- Embedding of `triggerAlarm` (useAlarm.ts lines 84-121): early return when already
ringing, otherwise set `isRinging` and start the alert outputs (counted here). -/
def triggerAlarm (s : AlarmState) : AlarmState :=
  if s.isRinging = true then s
  else { s with isRinging := true, startCount := s.startCount + 1 }

/-- Embedding of the distance-check effect of `Index` for one position update whose
computed distance is `d`: `if (isAlarmActive && !isAlarmRinging && distance <= alertRadius)
triggerAlarm()`. -/
def onPositionUpdate (alertRadius d : ℚ) (s : AlarmState) : AlarmState :=
  if s.isActive = true ∧ s.isRinging = false ∧ d ≤ alertRadius then triggerAlarm s else s

/-- A run of the session: the distance-check effect applied to each position update's
computed distance, in delivery order. -/
def runUpdates (alertRadius : ℚ) (ds : List ℚ) (s : AlarmState) : AlarmState :=
  ds.foldl (fun t d => onPositionUpdate alertRadius d t) s

/-- The `Trip` record of useTripHistory. -/
structure Trip : Type where
  id : String
  destinationName : String
  destinationLat : ℚ
  destinationLng : ℚ
  startTime : ℕ
  endTime : Option ℕ
  completed : Bool
  alertDistance : ℚ
deriving DecidableEq, Repr

/-- MAX_TRIPS from part_003 line 15. -/
def MAX_TRIPS : ℕ := 20

/-- Embedding of `saveTrips`: keep only the most recent `MAX_TRIPS` trips (the
localStorage write has no further observable effect on the list). -/
def saveTrips (newTrips : List Trip) : List Trip := newTrips.take MAX_TRIPS

/-- The trip record built by `startTrip` (id is `Date.now().toString()` and
`startTime` is `Date.now()`, both abstracted by the clock value `now`). -/
def mkTrip (now : ℕ) (destinationName : String)
    (destinationLat destinationLng alertDistance : ℚ) : Trip :=
  { id := toString now, destinationName := destinationName,
    destinationLat := destinationLat, destinationLng := destinationLng,
    startTime := now, endTime := none, completed := false,
    alertDistance := alertDistance }

/-- Embedding of `startTrip`: prepend the new trip and save; the new trip is returned. -/
def startTrip (now : ℕ) (destinationName : String)
    (destinationLat destinationLng alertDistance : ℚ) (trips : List Trip) :
    Trip × List Trip :=
  let newTrip := mkTrip now destinationName destinationLat destinationLng alertDistance
  (newTrip, saveTrips (newTrip :: trips))

/-- Per-trip effect of `endTrip`: the matching trip gets its `endTime` and `completed`
set, every other trip is returned as-is. -/
def endTripUpdate (tripId : String) (now : ℕ) (completed : Bool) (t : Trip) : Trip :=
  if t.id = tripId then { t with endTime := some now, completed := completed } else t

/-- Embedding of `endTrip`: map the per-trip update over the list and save. -/
def endTrip (tripId : String) (now : ℕ) (completed : Bool) (trips : List Trip) :
    List Trip :=
  saveTrips (trips.map (endTripUpdate tripId now completed))

/-- Embedding of `deleteTrip`: drop the matching trip and save. -/
def deleteTrip (tripId : String) (trips : List Trip) : List Trip :=
  saveTrips (trips.filter fun t => t.id != tripId)

/-- Embedding of `clearHistory`: save the empty list. -/
def clearHistory : List Trip := saveTrips []

/-- A destination as held by `Index`: coordinates plus an optional display name. -/
structure Destination : Type where
  lat : ℚ
  lng : ℚ
  name : Option String
deriving DecidableEq

/-- A position fix as consumed by `Index` (`currentPosition`). -/
structure Coord : Type where
  lat : ℚ
  lng : ℚ
deriving DecidableEq

/-- A toast message as issued by `Index` (destructive marks the error variant). -/
structure Toast : Type where
  title : String
  description : String
  destructive : Bool
deriving DecidableEq

/-- Abstraction of the fallback label `lat.toFixed(4), lng.toFixed(4)`; its exact
rendering is irrelevant to every claim. -/
def coordLabel (lat lng : ℚ) : String := toString lat ++ ", " ++ toString lng

/-- The destructive toast issued when arming is attempted without a destination or
without a position fix (Index.tsx lines 344-351). -/
def cannotStartToast : Toast :=
  { title := "Cannot start alarm",
    description := "Please ensure GPS is active and destination is set",
    destructive := true }

/-- The success toast of `handleActivateAlarm`; the source message uses a contraction
of "You will" and interpolates the radius with the same below/at-1000 formatting used
here. -/
def activatedToast (alertRadius : ℚ) : Toast :=
  { title := "Alarm Activated",
    description := "You will be alerted when within " ++
      (if alertRadius < 1000 then toString alertRadius.num ++ "m"
        else toFixed1 (alertRadius / 1000) ++ "km") ++ " of your destination",
    destructive := false }

/-- The `Index` page state touched by `handleActivateAlarm`: the alarm hook state, the
geolocation watch flag, the trip history, the current-trip ref and the toast log. -/
structure IndexState : Type where
  alarm : AlarmState
  isWatching : Bool
  trips : List Trip
  currentTripId : Option String
  toasts : List Toast
deriving DecidableEq

/-- Embedding of `handleActivateAlarm` (Index.tsx lines 343-369, trip-history variant;
the variant at lines 88-105 is identical minus the trip recording): if the destination
or the current position is missing, report the failure and return with everything else
unchanged; otherwise record a trip, remember its id, activate the alarm and start the
watch. -/
def handleActivateAlarm (destination : Option Destination)
    (currentPosition : Option Coord) (alertRadius : ℚ) (now : ℕ)
    (s : IndexState) : IndexState :=
  match destination, currentPosition with
  | some dest, some _ =>
      let started := startTrip now (dest.name.getD (coordLabel dest.lat dest.lng))
        dest.lat dest.lng alertRadius s.trips
      { s with trips := started.2,
               currentTripId := some started.1.id,
               alarm := { s.alarm with isActive := true },
               isWatching := true,
               toasts := activatedToast alertRadius :: s.toasts }
  | _, _ => { s with toasts := cannotStartToast :: s.toasts }

/-- The `AlarmSettings` fields that decide which timers are created. -/
structure NativeSettings : Type where
  vibrate : Bool
  sound : Bool
deriving DecidableEq

/-- The repeating timers the native trigger can create: the 2000 ms notification
re-scheduling interval and the 1000 ms secondary vibration interval of
`triggerNativeAlarm`, the 1500 ms vibration interval of `triggerAlarm` itself, and the
`setInterval(() => {}, 0)` placeholder that is created and immediately cleared. -/
inductive TimerKind : Type
  | notifReschedule
  | secondaryVibration
  | nativeVibration
  | dummy
deriving DecidableEq

/-- A live repeating timer handle. -/
structure Timer : Type where
  id : ℕ
  kind : TimerKind
deriving DecidableEq

/-- State of `useNativeAlarm` on a native platform: hook flags, `intervalRef.current`,
the ad hoc `vibrationInterval` property stored on the ref object, the timers currently
live in the runtime, the runtime's timer-id counter, and whether the device vibrates. -/
structure NativeAlarmState : Type where
  isActive : Bool
  isRinging : Bool
  intervalRef : Option ℕ
  vibrationIntervalRef : Option ℕ
  liveTimers : List Timer
  nextTimerId : ℕ
  vibrating : Bool
deriving DecidableEq

/-- `setInterval`: a fresh live timer; returns its handle. -/
def setIntervalOp (k : TimerKind) (s : NativeAlarmState) : ℕ × NativeAlarmState :=
  (s.nextTimerId,
    { s with liveTimers := s.liveTimers ++ [⟨s.nextTimerId, k⟩],
             nextTimerId := s.nextTimerId + 1 })

/-- `clearInterval`: the timer with this handle stops being live. -/
def clearIntervalOp (i : ℕ) (s : NativeAlarmState) : NativeAlarmState :=
  { s with liveTimers := s.liveTimers.filter fun t => t.id != i }

/-- Embedding of `triggerAlarm` (useNativeAlarm.ts lines 187-239) on a native platform,
composed with the post-await continuation of `triggerNativeAlarm` (lines 101-185) per
the ordering described above: the ringing guard; the native-vibrate block that creates
the 1500 ms vibration interval, snapshots `intervalRef.current`, creates and clears a
placeholder interval and stores `existingInterval || vibrationInterval`; then, when a
destination name was passed, the continuation's vibration burst, the 2000 ms
notification interval overwriting `intervalRef.current`, and the 1000 ms secondary
vibration interval stored on the ref property. -/
def triggerAlarmNative (settings : NativeSettings) (destinationName : Option String)
    (s : NativeAlarmState) : NativeAlarmState :=
  if s.isRinging = true then s
  else
    let s1 := { s with isRinging := true }
    let s2 :=
      if settings.vibrate = true then
        let created := setIntervalOp TimerKind.nativeVibration s1
        let existing := (created.2).intervalRef
        let dummyC := setIntervalOp TimerKind.dummy created.2
        let cleared := clearIntervalOp dummyC.1 dummyC.2
        { cleared with intervalRef := some (existing.getD created.1) }
      else s1
    match destinationName with
    | some _ =>
        let s3 := if settings.vibrate = true then { s2 with vibrating := true } else s2
        let notifC := setIntervalOp TimerKind.notifReschedule s3
        let s4 := { notifC.2 with intervalRef := some notifC.1 }
        let vibC := setIntervalOp TimerKind.secondaryVibration s4
        { vibC.2 with vibrationIntervalRef := some vibC.1 }
    | none => s2

/-- Embedding of `stopAlarm` (useNativeAlarm.ts lines 241-294): clear the interval held
by `intervalRef`, clear the interval held by the ad hoc `vibrationInterval` property,
zero the vibration and reset the ringing flag. Oscillator and gain refs are only
populated on the web path and stay null here; the notification cancellation is modeled
separately by `stopAlarmNotifications`. -/
def stopAlarmNative (s : NativeAlarmState) : NativeAlarmState :=
  let s1 :=
    match s.intervalRef with
    | some i => { clearIntervalOp i s with intervalRef := none }
    | none => s
  let s2 :=
    match s1.vibrationIntervalRef with
    | some i => { clearIntervalOp i s1 with vibrationIntervalRef := none }
    | none => s1
  { s2 with vibrating := false, isRinging := false }

/-- Embedding of `deactivateAlarm` (useNativeAlarm.ts lines 301-304): stop, then drop
both flags. -/
def deactivateAlarmNative (s : NativeAlarmState) : NativeAlarmState :=
  let s1 := stopAlarmNative s
  { s1 with isActive := false, isRinging := false }

/-- The hook state at mount. -/
def initNativeAlarm : NativeAlarmState := ⟨false, false, none, none, [], 0, false⟩

/-- A platform notification with its creator: `fromChannel` is true when this alarm
channel scheduled it, false for notifications created by other parts of the app. -/
structure PlatformNotification : Type where
  id : ℕ
  fromChannel : Bool
deriving DecidableEq

/-- The platform notification center: pending (scheduled) and delivered notifications. -/
structure NotificationCenter : Type where
  pending : List PlatformNotification
  delivered : List PlatformNotification
deriving DecidableEq

/-- `LocalNotifications.cancel`: the listed ids disappear from pending. -/
def cancelNotifications (ids : List ℕ) (nc : NotificationCenter) : NotificationCenter :=
  { nc with pending := nc.pending.filter fun n => decide (n.id ∉ ids) }

/-- `LocalNotifications.removeDeliveredNotifications`: the listed ids disappear from
delivered. -/
def removeDeliveredNotifications (ids : List ℕ) (nc : NotificationCenter) :
    NotificationCenter :=
  { nc with delivered := nc.delivered.filter fun n => decide (n.id ∉ ids) }

/-- Embedding of the notification block of `stopAlarm` (useNativeAlarm.ts lines
270-291): fetch ALL pending notifications and cancel them, then fetch ALL delivered
notifications and remove them — with no restriction to ids this channel created
(part_006 lines 246-254 is the same minus the delivered step). -/
def stopAlarmNotifications (nc : NotificationCenter) : NotificationCenter :=
  let pendingIds := nc.pending.map fun n => n.id
  let nc1 := if 0 < pendingIds.length then cancelNotifications pendingIds nc else nc
  let deliveredIds := nc1.delivered.map fun n => n.id
  if 0 < deliveredIds.length then removeDeliveredNotifications deliveredIds nc1 else nc1

/-- Position-watch bookkeeping: the hook's `watchIdRef.current`, the watches currently
live in the platform, the platform's watch-id counter and the `isWatching` flag. -/
structure GeoWatchState : Type where
  watchIdRef : Option ℕ
  activeWatches : List ℕ
  nextWatchId : ℕ
  isWatching : Bool
deriving DecidableEq

/-- The hook state at mount: no stored watch, no live watch. -/
def initGeoWatch : GeoWatchState := ⟨none, [], 0, false⟩

/-- Embedding of `startWatching` from `useGeolocation` (part_008 lines 74-103): refuse
to start while `watchIdRef.current !== null`, otherwise create a platform watch and
store its id. -/
def startWatching (s : GeoWatchState) : GeoWatchState :=
  if s.watchIdRef.isSome = true then s
  else
    { s with isWatching := true,
             activeWatches := s.nextWatchId :: s.activeWatches,
             watchIdRef := some s.nextWatchId,
             nextWatchId := s.nextWatchId + 1 }

/-- Embedding of `stopWatching` from `useGeolocation` (part_008 lines 105-111): clear
the stored watch when one exists, otherwise do nothing. -/
def stopWatching (s : GeoWatchState) : GeoWatchState :=
  match s.watchIdRef with
  | some i =>
      { s with activeWatches := s.activeWatches.filter fun w => w != i,
               watchIdRef := none, isWatching := false }
  | none => s

/-- Embedding of `startWatching` from `useNativeGeolocation` (lines 194-259; the
Capacitor and browser-fallback branches have identical handle bookkeeping): create a
platform watch unconditionally and overwrite the stored id — there is no
already-watching guard and the previous watch is not cleared. -/
def startWatchingNative (s : GeoWatchState) : GeoWatchState :=
  { s with isWatching := true,
           activeWatches := s.nextWatchId :: s.activeWatches,
           watchIdRef := some s.nextWatchId,
           nextWatchId := s.nextWatchId + 1 }

/-- Embedding of `stopWatching` from `useNativeGeolocation` (lines 261-271): clear the
stored watch when one exists; `isWatching` is reset regardless. -/
def stopWatchingNative (s : GeoWatchState) : GeoWatchState :=
  match s.watchIdRef with
  | some i =>
      { s with activeWatches := s.activeWatches.filter fun w => w != i,
               watchIdRef := none, isWatching := false }
  | none => { s with isWatching := false }

/-- A user-level call on the watching interface. -/
inductive WatchEvent : Type
  | start
  | stop
deriving DecidableEq

/-- A call sequence against the `useGeolocation` hook. -/
def runWatch (evs : List WatchEvent) (s : GeoWatchState) : GeoWatchState :=
  evs.foldl
    (fun t e => match e with
      | WatchEvent.start => startWatching t
      | WatchEvent.stop => stopWatching t) s

/-- A call sequence against the `useNativeGeolocation` hook. -/
def runWatchNative (evs : List WatchEvent) (s : GeoWatchState) : GeoWatchState :=
  evs.foldl
    (fun t e => match e with
      | WatchEvent.start => startWatchingNative t
      | WatchEvent.stop => stopWatchingNative t) s

/-- Shape invariant of the web hook: the live watches are exactly the one stored in
`watchIdRef`. -/
def watchInv (s : GeoWatchState) : Prop :=
  match s.watchIdRef with
  | none => s.activeWatches = []
  | some i => s.activeWatches = [i]

/-! ## Theorems -/

/-- Algebraic core of the source-versus-spec comparison: the source's
`R * (2 * atan2 ...)` with squares spelled as repeated products equals the spec's
`2 * R * atan2 ...` with squares spelled as powers. -/
theorem haversine_shape_eq (R s c t : ℝ) :
    R * (2 * atan2 (Real.sqrt (s * s + c * t * t)) (Real.sqrt (1 - (s * s + c * t * t)))) =
      2 * R * atan2 (Real.sqrt (s ^ 2 + c * t ^ 2)) (Real.sqrt (1 - (s ^ 2 + c * t ^ 2))) := by
  have h : s * s + c * t * t = s ^ 2 + c * t ^ 2 := by ring
  rw [h]; ring

/-- C5: for every pair of coordinates, `calculateDistance` returns exactly the
great-circle distance of the spec's haversine formula with Earth radius 6,371,000 m,
after converting the inputs from degrees to radians. -/
theorem calculateDistance_matches_spec_haversine (lat1 lon1 lat2 lon2 : ℝ) :
    calculateDistance lat1 lon1 lat2 lon2 = specHaversineDistance lat1 lon1 lat2 lon2 :=
  haversine_shape_eq 6371000
    (Real.sin ((lat2 - lat1) * Real.pi / 180 / 2))
    (Real.cos (lat1 * Real.pi / 180) * Real.cos (lat2 * Real.pi / 180))
    (Real.sin ((lon2 - lon1) * Real.pi / 180 / 2))

/-! ## Distance formatting -/

/-- Evaluation rule for `Rat.floor` at concrete rationals, through the floor-ring
characterisation. -/
theorem ratFloor_eq (q : ℚ) (z : ℤ) (h1 : (z : ℚ) ≤ q) (h2 : q < z + 1) :
    Rat.floor q = z := by
  have hq : Rat.floor q = ⌊q⌋ := rfl
  rw [hq]
  exact Int.floor_eq_iff.mpr ⟨h1, h2⟩

/-- C7: `formatDistance` renders 999 as "999m" (below-1000 branch, integer meters),
1000 as "1.0km" and 2500 as "2.5km" (at-or-above-1000 branch, one decimal place). -/
theorem formatDistance_examples :
    formatDistance 999 = "999m" ∧ formatDistance 1000 = "1.0km" ∧
      formatDistance 2500 = "2.5km" := by
  refine ⟨?_, ?_, ?_⟩
  · unfold formatDistance jsRound
    rw [if_pos (by norm_num : (999 : ℚ) < 1000),
      ratFloor_eq ((999 : ℚ) + 1 / 2) 999 (by norm_num) (by norm_num)]
    rfl
  · unfold formatDistance toFixed1
    rw [if_neg (by norm_num : ¬ (1000 : ℚ) < 1000),
      ratFloor_eq ((1000 : ℚ) / 1000 * 10 + 1 / 2) 10 (by norm_num) (by norm_num)]
    rfl
  · unfold formatDistance toFixed1
    rw [if_neg (by norm_num : ¬ (2500 : ℚ) < 1000),
      ratFloor_eq ((2500 : ℚ) / 1000 * 10 + 1 / 2) 25 (by norm_num) (by norm_num)]
    rfl

/-! ## JavaScript number semantics of calculateDistance

The source performs plain floating-point arithmetic with no validation. To settle the
claim about non-finite inputs we re-run the source over a carrier that distinguishes
finite from non-finite values: `some x` is a finite double (idealised as a real), `none`
is a non-finite double. In `calculateDistance` every non-finite intermediate is NaN or
feeds `Math.sin`/`Math.cos` (which map non-finite arguments to NaN), NaN propagates
through `+ - * /`, `Math.sqrt` and `Math.atan2`, and with finite inputs the haversine
term `a` lies in `[0, 1]` so no operation creates a non-finite value; hence plain
none-propagation is the exact behaviour of the source on this carrier. -/

/-- C6 counterexample: with a non-finite first latitude, `calculateDistance` does not
return an `InvalidCoordinate` error; it returns normally (with a NaN value), so the
claimed rejection is absent from the code. -/
theorem distance_nonfinite_not_rejected :
    calculateDistanceResult none (some 0) (some 0) (some 0) ≠
      Except.error GeoError.invalidCoordinate := by
  simp [calculateDistanceResult]

/-- C6 amended: `calculateDistance` performs no finiteness validation; a non-finite
coordinate is accepted, propagates through the haversine arithmetic, and yields a
non-finite (NaN) numeric result through the ordinary return path instead of any error. -/
theorem distance_nan_propagates (lat1 lon1 lat2 lon2 : JSNum)
    (h : lat1 = none ∨ lon1 = none ∨ lat2 = none ∨ lon2 = none) :
    calculateDistanceJS lat1 lon1 lat2 lon2 = none ∧
      calculateDistanceResult lat1 lon1 lat2 lon2 =
        Except.ok (calculateDistanceJS lat1 lon1 lat2 lon2) := by
  refine ⟨?_, rfl⟩
  rcases lat1 with _ | x1 <;> rcases lon1 with _ | y1 <;>
    rcases lat2 with _ | x2 <;> rcases lon2 with _ | y2 <;>
      simp_all [calculateDistanceJS, jsBin, jsUn, jsAtan2]

/-- C6 amended, witness: a NaN first latitude with finite remaining coordinates flows to
a NaN result. -/
theorem distance_nan_propagates_witness :
    calculateDistanceJS none (some 0) (some 0) (some 0) = none :=
  (distance_nan_propagates none (some 0) (some 0) (some 0) (Or.inl rfl)).1

/-! ## AlarmEngine trigger state machine

State of `useAlarm` (src/src/hooks/useAlarm.ts) as driven by the distance-check effect
of `Index` (src/src/pages/Index.tsx lines 139-153). Distances and radii are rationals:
the effect only compares the already-computed distance against the radius, so the claims
about the trigger logic are claims about this comparison. `startCount` instruments how
many times `triggerAlarm` passed its guard and started the alert outputs; it is not a
source field. Updates are serialized in delivery order (single event loop). -/

/-- Ringing states absorb position updates: both the effect guard and the
`triggerAlarm` guard refuse to act. -/
theorem onPositionUpdate_ringing (alertRadius d : ℚ) (s : AlarmState)
    (h : s.isRinging = true) : onPositionUpdate alertRadius d s = s := by
  unfold onPositionUpdate
  rw [if_neg]
  rintro ⟨-, h2, -⟩
  rw [h] at h2
  cases h2

/-- A whole run from a ringing state changes nothing. -/
theorem runUpdates_ringing (alertRadius : ℚ) (ds : List ℚ) (s : AlarmState)
    (h : s.isRinging = true) : runUpdates alertRadius ds s = s := by
  induction ds with
  | nil => rfl
  | cons d ds ih =>
      show runUpdates alertRadius ds (onPositionUpdate alertRadius d s) = s
      rw [onPositionUpdate_ringing alertRadius d s h, ih]

/-- An armed, not-yet-ringing state hit by an in-radius update rings and counts one
start. -/
theorem onPositionUpdate_hit (alertRadius d : ℚ) (s : AlarmState)
    (hA : s.isActive = true) (hR : s.isRinging = false) (hd : d ≤ alertRadius) :
    onPositionUpdate alertRadius d s =
      { s with isRinging := true, startCount := s.startCount + 1 } := by
  unfold onPositionUpdate triggerAlarm
  rw [if_pos ⟨hA, hR, hd⟩, if_neg (by rw [hR]; exact fun h => Bool.noConfusion h)]

/-- An armed, not-yet-ringing state hit by an out-of-radius update is unchanged. -/
theorem onPositionUpdate_miss (alertRadius d : ℚ) (s : AlarmState)
    (hd : ¬ d ≤ alertRadius) : onPositionUpdate alertRadius d s = s := by
  unfold onPositionUpdate
  rw [if_neg (fun h => hd h.2.2)]

/-- From an armed, not-yet-ringing state, a run whose updates all stay outside the
radius leaves the state untouched, and a run containing an in-radius update ends
ringing with exactly one additional start. -/
theorem runUpdates_armed (alertRadius : ℚ) (ds : List ℚ) (s : AlarmState)
    (hA : s.isActive = true) (hR : s.isRinging = false) :
    ((∀ d ∈ ds, ¬ d ≤ alertRadius) → runUpdates alertRadius ds s = s) ∧
      ((∃ d ∈ ds, d ≤ alertRadius) →
        runUpdates alertRadius ds s =
          { s with isRinging := true, startCount := s.startCount + 1 }) := by
  induction ds with
  | nil =>
      exact ⟨fun _ => rfl, fun h => absurd h (by simp)⟩
  | cons d ds ih =>
      constructor
      · intro hall
        show runUpdates alertRadius ds (onPositionUpdate alertRadius d s) = s
        rw [onPositionUpdate_miss alertRadius d s (hall d (List.mem_cons_self d ds))]
        exact (ih).1 fun e he => hall e (List.mem_cons_of_mem d he)
      · intro hex
        by_cases hd : d ≤ alertRadius
        · show runUpdates alertRadius ds (onPositionUpdate alertRadius d s) = _
          rw [onPositionUpdate_hit alertRadius d s hA hR hd]
          exact runUpdates_ringing alertRadius ds _ rfl
        · show runUpdates alertRadius ds (onPositionUpdate alertRadius d s) = _
          rw [onPositionUpdate_miss alertRadius d s hd]
          rcases hex with ⟨e, he, hle⟩
          rcases List.mem_cons.mp he with rfl | he
          · exact absurd hle hd
          · exact (ih).2 ⟨e, he, hle⟩

/-- C1: from an armed, not-ringing session, the first in-radius update transitions to
Ringing and invokes the alert start exactly once; any update delivered while Ringing
leaves the state unchanged (and in particular never re-invokes the start); and over any
whole run containing an in-radius update the start is invoked exactly once in total. -/
theorem armed_first_hit_fires_once (alertRadius : ℚ) (s : AlarmState)
    (hA : s.isActive = true) (hR : s.isRinging = false) :
    (∀ d, d ≤ alertRadius →
        onPositionUpdate alertRadius d s =
          { s with isRinging := true, startCount := s.startCount + 1 }) ∧
      (∀ t : AlarmState, t.isRinging = true → ∀ d, onPositionUpdate alertRadius d t = t) ∧
      (∀ ds : List ℚ, (∃ d ∈ ds, d ≤ alertRadius) →
        runUpdates alertRadius ds s =
          { s with isRinging := true, startCount := s.startCount + 1 }) := by
  refine ⟨fun d hd => onPositionUpdate_hit alertRadius d s hA hR hd,
    fun t ht d => onPositionUpdate_ringing alertRadius d t ht,
    fun ds hex => (runUpdates_armed alertRadius ds s hA hR).2 hex⟩

/-- C1 witness: the spec's own scenario — armed with radius 1000, updates at distances
1500 (outside), 900 (inside, fires), then 50 and 5000 while ringing — ends Ringing with
exactly one alert start. -/
theorem armed_first_hit_fires_once_witness :
    runUpdates 1000 [1500, 900, 50, 5000] ⟨true, false, 0⟩ = ⟨true, true, 1⟩ :=
  (armed_first_hit_fires_once 1000 ⟨true, false, 0⟩ rfl rfl).2.2
    [1500, 900, 50, 5000] ⟨900, by norm_num, by norm_num⟩

/-- C4: for an armed, not-ringing session the update rings exactly when `d ≤ r` — the
boundary is inclusive (`d = r` fires) and a strictly greater distance leaves the state
unchanged. -/
theorem trigger_iff_within_radius (alertRadius d : ℚ) (s : AlarmState)
    (hA : s.isActive = true) (hR : s.isRinging = false) :
    ((onPositionUpdate alertRadius d s).isRinging = true ↔ d ≤ alertRadius) ∧
      (d = alertRadius → (onPositionUpdate alertRadius d s).isRinging = true) ∧
      (alertRadius < d → onPositionUpdate alertRadius d s = s) := by
  have hiff : (onPositionUpdate alertRadius d s).isRinging = true ↔ d ≤ alertRadius := by
    constructor
    · intro h
      by_contra hd
      rw [onPositionUpdate_miss alertRadius d s hd, hR] at h
      cases h
    · intro hd
      rw [onPositionUpdate_hit alertRadius d s hA hR hd]
  exact ⟨hiff, fun he => hiff.mpr (le_of_eq he),
    fun hlt => onPositionUpdate_miss alertRadius d s (not_le.mpr hlt)⟩

/-- C4 witness: radius 1000, update at exactly distance 1000 from an armed session
fires the alarm. -/
theorem trigger_iff_within_radius_witness :
    (onPositionUpdate 1000 1000 ⟨true, false, 0⟩).isRinging = true :=
  (trigger_iff_within_radius 1000 1000 ⟨true, false, 0⟩ rfl rfl).2.1 rfl

/-! ## TripRecorder (useTripHistory, src/unnamed/part_003) -/

/-- C10: every trip-recorder operation leaves at most `MAX_TRIPS = 20` trips;
`startTrip` prepends the new trip (newest-first) and discards entries beyond the cap;
and, under the size invariant, `endTrip` is exactly the pointwise update that changes
only the matching trip's `endTime` and `completed` fields and keeps every other trip. -/
theorem trip_history_bounded_ops :
    (∀ now name lat lng r trips,
        (startTrip now name lat lng r trips).2 =
            (mkTrip now name lat lng r :: trips).take MAX_TRIPS ∧
          (startTrip now name lat lng r trips).2.length ≤ MAX_TRIPS) ∧
      (∀ tripId now completed trips, (endTrip tripId now completed trips).length ≤ MAX_TRIPS) ∧
      (∀ tripId trips, (deleteTrip tripId trips).length ≤ MAX_TRIPS) ∧
      clearHistory = [] ∧
      (∀ tripId now completed trips, trips.length ≤ MAX_TRIPS →
        endTrip tripId now completed trips = trips.map (endTripUpdate tripId now completed)) ∧
      (∀ tripId now completed t, t.id ≠ tripId → endTripUpdate tripId now completed t = t) ∧
      (∀ tripId now completed t, t.id = tripId →
        endTripUpdate tripId now completed t = { t with endTime := some now, completed := completed }) ∧
      (∀ tripId now completed t trips, trips.length ≤ MAX_TRIPS → t ∈ trips →
        t.id ≠ tripId → t ∈ endTrip tripId now completed trips) := by
  have hlen : ∀ l : List Trip, (saveTrips l).length ≤ MAX_TRIPS := by
    intro l
    simp [saveTrips]
  have hall : ∀ l : List Trip, l.length ≤ MAX_TRIPS → saveTrips l = l := by
    intro l hl
    exact List.take_of_length_le hl
  have hend : ∀ tripId now completed (trips : List Trip), trips.length ≤ MAX_TRIPS →
      endTrip tripId now completed trips = trips.map (endTripUpdate tripId now completed) := by
    intro tripId now completed trips h
    unfold endTrip
    exact hall _ (by simp [h])
  have hupd : ∀ tripId now completed t, t.id ≠ tripId → endTripUpdate tripId now completed t = t := by
    intro tripId now completed t h
    unfold endTripUpdate
    rw [if_neg h]
  refine ⟨fun now name lat lng r trips => ⟨rfl, hlen _⟩,
    fun tripId now completed trips => hlen _,
    fun tripId trips => hlen _,
    rfl,
    hend,
    hupd,
    fun tripId now completed t h => by unfold endTripUpdate; rw [if_pos h],
    ?_⟩
  intro tripId now completed t trips hle hmem hne
  rw [hend tripId now completed trips hle]
  have : endTripUpdate tripId now completed t ∈
      trips.map (endTripUpdate tripId now completed) := List.mem_map_of_mem _ hmem
  rwa [hupd tripId now completed t hne] at this

/-- C10 witness: a two-trip history (both within the cap); ending trip "7" as completed
at time 99 updates exactly that trip and leaves trip "8" untouched. -/
theorem trip_history_bounded_ops_witness :
    endTrip "7" 99 true
        [⟨"7", "Home", 1, 2, 5, none, false, 500⟩,
          ⟨"8", "Work", 3, 4, 6, none, false, 800⟩] =
      [⟨"7", "Home", 1, 2, 5, some 99, true, 500⟩,
        ⟨"8", "Work", 3, 4, 6, none, false, 800⟩] := by
  have h := trip_history_bounded_ops.2.2.2.2.1 "7" 99 true
    [⟨"7", "Home", 1, 2, 5, none, false, 500⟩,
      ⟨"8", "Work", 3, 4, 6, none, false, 800⟩] (by simp [MAX_TRIPS])
  rw [h]
  simp [endTripUpdate]

/-! ## Arming preconditions (Index.handleActivateAlarm) -/

/-- C3: arming before any position fix, or without a destination, only reports the
failure: the resulting state is the old state with the "Cannot start alarm" toast
prepended — the alarm state (in particular `isActive`) is untouched, no watch is
started, no trip is recorded and no trip id is remembered. -/
theorem activate_without_fix_or_destination_is_noop
    (destination : Option Destination) (currentPosition : Option Coord)
    (alertRadius : ℚ) (now : ℕ) (s : IndexState)
    (h : currentPosition = none ∨ destination = none) :
    handleActivateAlarm destination currentPosition alertRadius now s =
        { s with toasts := cannotStartToast :: s.toasts } ∧
      (handleActivateAlarm destination currentPosition alertRadius now s).alarm = s.alarm ∧
      (handleActivateAlarm destination currentPosition alertRadius now s).isWatching = s.isWatching ∧
      (handleActivateAlarm destination currentPosition alertRadius now s).trips = s.trips ∧
      (handleActivateAlarm destination currentPosition alertRadius now s).currentTripId = s.currentTripId := by
  have key : handleActivateAlarm destination currentPosition alertRadius now s =
      { s with toasts := cannotStartToast :: s.toasts } := by
    rcases h with h | h <;> subst h
    · cases destination <;> rfl
    · cases currentPosition <;> rfl
  exact ⟨key, by rw [key], by rw [key], by rw [key], by rw [key]⟩

/-- C3 witness: a destination is set but no fix was ever delivered; from the idle state
the attempt only logs the failure toast and the session stays idle. -/
theorem activate_without_fix_or_destination_is_noop_witness :
    handleActivateAlarm (some ⟨1, 2, some "Work"⟩) none 500 3
        ⟨⟨false, false, 0⟩, false, [], none, []⟩ =
      ⟨⟨false, false, 0⟩, false, [], none, [cannotStartToast]⟩ :=
  (activate_without_fix_or_destination_is_noop (some ⟨1, 2, some "Work"⟩) none 500 3
    ⟨⟨false, false, 0⟩, false, [], none, []⟩ (Or.inl rfl)).1

/-! ## Native alarm timers (useNativeAlarm, src/src/hooks/useNativeAlarm.ts)

Timer bookkeeping of the native path. JavaScript ordering: `triggerAlarm` runs
synchronously; its call to the async `triggerNativeAlarm` executes up to the first
`await` (which creates no timers and writes no refs), then the rest of `triggerAlarm`
runs (the native-vibrate block), and when the stack unwinds the continuation of
`triggerNativeAlarm` performs the vibration burst and creates its two intervals. A
`stopAlarm` issued later therefore observes the sequential composition modeled by
`triggerAlarmNative`. -/

/-- C2 (failing evaluation): on the native path with vibration enabled, triggering with
a destination and then running `stopAlarm` followed by `deactivateAlarm` reaches the
idle flags but leaves the 1500 ms vibration interval created by `triggerAlarm` live:
its handle was overwritten in `intervalRef.current` by the notification interval of
`triggerNativeAlarm`, so no clear ever reaches it and vibration keeps firing after the
calls return. -/
theorem native_stop_leaves_vibration_interval_live :
    (deactivateAlarmNative (stopAlarmNative (triggerAlarmNative ⟨true, true⟩
          (some "Central Station") { initNativeAlarm with isActive := true }))).liveTimers =
        [⟨0, TimerKind.nativeVibration⟩] ∧
      (deactivateAlarmNative (stopAlarmNative (triggerAlarmNative ⟨true, true⟩
          (some "Central Station") { initNativeAlarm with isActive := true }))).isActive = false ∧
      (deactivateAlarmNative (stopAlarmNative (triggerAlarmNative ⟨true, true⟩
          (some "Central Station") { initNativeAlarm with isActive := true }))).isRinging = false :=
  ⟨rfl, rfl, rfl⟩

/-! ## Notification cancellation (stopAlarm, native path) -/

/-- C8 counterexample: with one pending notification created by this channel (id 7) and
one created elsewhere in the app (id 42), `stopAlarm` cancels the foreign notification
too — it is pending before the call and gone after it. -/
theorem stop_cancels_foreign_notification :
    (⟨42, false⟩ : PlatformNotification) ∈
        (NotificationCenter.mk [⟨7, true⟩, ⟨42, false⟩] []).pending ∧
      (⟨42, false⟩ : PlatformNotification) ∉
        (stopAlarmNotifications (NotificationCenter.mk [⟨7, true⟩, ⟨42, false⟩] [])).pending := by
  decide

/-- Helper: filtering a list down to the elements whose id does not occur among the ids
of that same list leaves nothing. -/
theorem filter_out_own_ids (l : List PlatformNotification) :
    (l.filter fun n => decide (n.id ∉ l.map fun m => m.id)) = [] := by
  rw [List.filter_eq_nil_iff]
  intro a ha
  simp only [decide_eq_true_eq, not_not]
  exact List.mem_map_of_mem (fun m => m.id) ha

/-- Helper: the guarded pending-cancellation step of `stopAlarm` empties `pending`. -/
theorem cancel_step (nc : NotificationCenter) :
    (if 0 < (nc.pending.map fun n => n.id).length then
        cancelNotifications (nc.pending.map fun n => n.id) nc
      else nc) = { nc with pending := [] } := by
  by_cases h : 0 < (nc.pending.map fun n => n.id).length
  · rw [if_pos h]
    unfold cancelNotifications
    rw [filter_out_own_ids nc.pending]
  · rw [if_neg h]
    have hnil : nc.pending = [] := by
      cases hp : nc.pending with
      | nil => rfl
      | cons a l => exact absurd (by simp [hp]) h
    obtain ⟨p, dl⟩ := nc
    simp only at hnil
    rw [hnil]

/-- Helper: the guarded delivered-removal step of `stopAlarm` empties `delivered`. -/
theorem remove_step (nc : NotificationCenter) :
    (if 0 < (nc.delivered.map fun n => n.id).length then
        removeDeliveredNotifications (nc.delivered.map fun n => n.id) nc
      else nc) = { nc with delivered := [] } := by
  by_cases h : 0 < (nc.delivered.map fun n => n.id).length
  · rw [if_pos h]
    unfold removeDeliveredNotifications
    rw [filter_out_own_ids nc.delivered]
  · rw [if_neg h]
    have hnil : nc.delivered = [] := by
      cases hp : nc.delivered with
      | nil => rfl
      | cons a l => exact absurd (by simp [hp]) h
    obtain ⟨p, dl⟩ := nc
    simp only at hnil
    rw [hnil]

/-- C8 amended: the native `stopAlarm` cancels every pending notification and removes
every delivered notification, regardless of which component created it; nothing
survives, so the channel's own alerts stop but unrelated app notifications are wiped
with them. -/
theorem stop_cancels_all_notifications (nc : NotificationCenter) :
    (stopAlarmNotifications nc).pending = [] ∧
      (stopAlarmNotifications nc).delivered = [] := by
  have hmain : stopAlarmNotifications nc = { nc with pending := [], delivered := [] } := by
    simp only [stopAlarmNotifications]
    rw [cancel_step nc, remove_step { nc with pending := [] }]
  rw [hmain]
  exact ⟨rfl, rfl⟩

/-! ## GeoProvider watch bookkeeping -/

/-- C9 counterexample: two consecutive `startWatching` calls on the
`useNativeGeolocation` provider leave two concurrently live platform watches — the
claimed at-most-one invariant fails on this provider. -/
theorem native_double_start_two_watches :
    1 < (runWatchNative [WatchEvent.start, WatchEvent.start] initGeoWatch).activeWatches.length := by
  decide

/-- The web `startWatching` preserves the shape invariant. -/
theorem watchInv_start (s : GeoWatchState) (h : watchInv s) : watchInv (startWatching s) := by
  obtain ⟨ref, act, next, w⟩ := s
  cases ref with
  | none =>
      simp only [watchInv] at h
      simp [watchInv, startWatching, Option.isSome, h]
  | some i =>
      simpa [watchInv, startWatching, Option.isSome] using h

/-- The web `stopWatching` preserves the shape invariant. -/
theorem watchInv_stop (s : GeoWatchState) (h : watchInv s) : watchInv (stopWatching s) := by
  obtain ⟨ref, act, next, w⟩ := s
  cases ref with
  | none => simpa [watchInv, stopWatching] using h
  | some i =>
      simp only [watchInv] at h
      simp [watchInv, stopWatching, h]

/-- Every call sequence on the web hook preserves the shape invariant. -/
theorem watchInv_run (evs : List WatchEvent) :
    ∀ s : GeoWatchState, watchInv s → watchInv (runWatch evs s) := by
  induction evs with
  | nil => exact fun s h => h
  | cons e evs ih =>
      intro s h
      cases e with
      | start => exact ih _ (watchInv_start s h)
      | stop => exact ih _ (watchInv_stop s h)

/-- C9 (amended): the web `useGeolocation` hook keeps at most one platform watch live
under every call sequence (it refuses a duplicate start), while the
`useNativeGeolocation` hook neither stops nor refuses: after two starts, watch 0 is
orphaned — still live although the ref only remembers watch 1. -/
theorem watch_exclusivity_web_not_native :
    (∀ evs : List WatchEvent, (runWatch evs initGeoWatch).activeWatches.length ≤ 1) ∧
      (runWatchNative [WatchEvent.start, WatchEvent.start] initGeoWatch).activeWatches = [1, 0] ∧
      (runWatchNative [WatchEvent.start, WatchEvent.start] initGeoWatch).watchIdRef = some 1 := by
  refine ⟨?_, rfl, rfl⟩
  intro evs
  have h := watchInv_run evs initGeoWatch (by simp [watchInv, initGeoWatch])
  revert h
  unfold watchInv
  cases (runWatch evs initGeoWatch).watchIdRef with
  | none => intro h; simp [h]
  | some i => intro h; simp [h]

end StopNGo
